import Mathlib

/-!
# Verification of the bitbucket-mcp HTTP core

Shallow embedding of the request-execution pipeline of the `bitbucket-mcp`
repository: the typed error hierarchy and classifier (`src/utils/errors.ts`),
the pagination helpers (`src/utils/pagination.ts`), the `BitbucketClient`
retry loop (`src/api/client.ts`), and the four auth providers
(`src/auth/api-token.ts`, `src/auth/basic-auth.ts`, `src/auth/oauth2.ts`).

JavaScript semantics relevant to the model:
* `a ?? b` acts on `null`/`undefined` only: modelled by `Option.getD`.
* `if (x)` on a number is truthiness: `0` (and `NaN`) is falsy; on a string,
  `""` is falsy.
* `Buffer.from(s).toString('base64')` encodes the UTF-8 bytes of `s`.
-/

namespace BitbucketMCP

/-! ## Error model (`src/utils/errors.ts`)

Each subclass of `BitbucketMCPError` becomes a constructor; its `message`,
`code` and `statusCode` fields become projection functions mirroring the
strings and numbers fixed in the constructors of the source classes. -/

/-- The typed error hierarchy rooted at `BitbucketMCPError`. -/
inductive TypedError
  | authentication (message : String)
  | authorization (message : String)
  | notFound (resource : String) (identifier : String)
  | rateLimit (retryAfter : Option Nat)
  | validation (message : String)
  | configuration (message : String)
  | api (message : String) (statusCode : Nat) (endpoint : String)
  deriving DecidableEq, Repr

namespace TypedError

/-- The `message` property of each error class. -/
def message : TypedError → String
  | authentication m => m
  | authorization m => m
  | notFound resource identifier => resource ++ " not found: " ++ identifier
  | rateLimit retryAfter =>
      "Rate limit exceeded" ++
        (match retryAfter with
          | some n => ". Retry after " ++ toString n ++ " seconds"
          | none => "")
  | validation m => m
  | configuration m => m
  | api m _ _ => m

/-- The stable machine-readable `code` of each error class. -/
def code : TypedError → String
  | authentication _ => "AUTHENTICATION_ERROR"
  | authorization _ => "AUTHORIZATION_ERROR"
  | notFound _ _ => "NOT_FOUND"
  | rateLimit _ => "RATE_LIMIT_ERROR"
  | validation _ => "VALIDATION_ERROR"
  | configuration _ => "CONFIGURATION_ERROR"
  | api _ _ _ => "BITBUCKET_API_ERROR"

/-- The `statusCode` of each error class (`ConfigurationError` has none). -/
def statusCode : TypedError → Option Nat
  | authentication _ => some 401
  | authorization _ => some 403
  | notFound _ _ => some 404
  | rateLimit _ => some 429
  | validation _ => some 400
  | configuration _ => none
  | api _ s _ => some s

/-- The `retryAfter` field, present only on `RateLimitError`. -/
def retryAfterField : TypedError → Option Nat
  | rateLimit r => r
  | _ => none

end TypedError

/-- The error-body shapes `parseAPIError` looks at: `{error: {message}}`,
`{message}` and `{retry_after}`; every field may be absent. -/
structure ErrorBody where
  errorMessage : Option String := none
  message : Option String := none
  retry_after : Option Nat := none
  deriving DecidableEq, Repr

/-- Source `parseAPIError(statusCode, endpoint, responseBody)`:
message is `body?.error?.message ?? body?.message ?? 'Unknown error'`,
then dispatch on the status code. -/
def parseAPIError (statusCode : Nat) (endpoint : String) (body : ErrorBody) :
    TypedError :=
  let errorMessage := (body.errorMessage.orElse fun _ => body.message).getD "Unknown error"
  if statusCode = 401 then .authentication errorMessage
  else if statusCode = 403 then .authorization errorMessage
  else if statusCode = 404 then .notFound "Resource" endpoint
  else if statusCode = 429 then .rateLimit body.retry_after
  else .api errorMessage statusCode endpoint

/-! ## Pagination helpers (`src/utils/pagination.ts`) -/

/-- JavaScript string truthiness for an optional string field:
`undefined` and `""` are falsy. -/
def jsFalsyOpt (o : Option String) : Bool := o.getD "" = ""

/-- The pagination envelope `PaginatedResponse<T>` (the fields the helpers
read: `next` and `values`; `size`/`page`/`pagelen`/`previous` are carried for
fidelity but unused by the control flow). -/
structure PaginatedResponse (T : Type) where
  size : Option Nat := none
  page : Option Nat := none
  pagelen : Option Nat := none
  next : Option String := none
  previous : Option String := none
  values : List T

/-- Source `PaginationOptions`: all fields optional; `page`/`pagelen` are numbers. -/
structure PaginationOptions where
  page : Option Int := none
  pagelen : Option Int := none
  maxPages : Option Nat := none
  deriving DecidableEq, Repr

def DEFAULT_PAGE_LENGTH : Int := 25
def MAX_PAGE_LENGTH : Int := 100
def DEFAULT_MAX_PAGES : Nat := 10

/-- Source `buildPaginationParams(options?)`: the returned `Record<string, string>`
as an insertion-ordered association list. `if (options?.page)` is numeric
truthiness, so a zero page adds no `page` key. -/
def buildPaginationParams (options : Option PaginationOptions) :
    List (String × String) :=
  let pageEntries :=
    match options.bind (·.page) with
    | some p => if p ≠ 0 then [("page", toString p)] else []
    | none => []
  let pagelen := min ((options.bind (·.pagelen)).getD DEFAULT_PAGE_LENGTH) MAX_PAGE_LENGTH
  pageEntries ++ [("pagelen", toString pagelen)]

/-- Source `hasMorePages(response)`: `!!response.next` — JS string
truthiness, so an empty-string `next` counts as no more pages. -/
def hasMorePages {T : Type} (response : PaginatedResponse T) : Bool :=
  !jsFalsyOpt response.next

/-- The `while (pageCount < maxPages)` loop of `paginateResults`, recursing
structurally on the remaining page budget `fuel = maxPages - pageCount`
(the guard `pageCount < maxPages` is `fuel > 0`). The break
`if (!response.next) break` is JS string truthiness: the walk stops when
`next` is absent or the empty string. `fetchPage` is the supplied
page-fetch function (pure in this embedding); the returned list is the
sequence of yielded `values` batches. -/
def paginateResultsLoop {T : Type} (fetchPage : Int → Int → PaginatedResponse T)
    (pagelen : Int) : (fuel : Nat) → (currentPage : Int) → List (List T)
  | 0, _ => []
  | fuel + 1, currentPage =>
      let response := fetchPage currentPage pagelen
      response.values ::
        (if !jsFalsyOpt response.next then
          paginateResultsLoop fetchPage pagelen fuel (currentPage + 1)
        else [])

/-- Source `paginateResults(fetchPage, options?)`: resolves `pagelen`
(`min(options?.pagelen ?? 25, 100)`), `maxPages` (`?? 10`) and the starting
page (`options?.page ?? 1`), then walks pages (`pageCount` starts at 0, so
the initial budget is `maxPages`). -/
def paginateResults {T : Type} (fetchPage : Int → Int → PaginatedResponse T)
    (options : Option PaginationOptions) : List (List T) :=
  let pagelen := min ((options.bind (·.pagelen)).getD DEFAULT_PAGE_LENGTH) MAX_PAGE_LENGTH
  let maxPages := (options.bind (·.maxPages)).getD DEFAULT_MAX_PAGES
  let startPage := (options.bind (·.page)).getD 1
  paginateResultsLoop fetchPage pagelen maxPages startPage

/-! ## `BitbucketClient.executeWithRetry` (`src/api/client.ts`)

The loop is embedded as a recursion over the retry counter. Each iteration
performs exactly one `fetch`; the transport is modelled by a trace assigning
to each attempt index its outcome (an HTTP response, an abort because the
per-attempt timer fired first, or a transport-level error). The embedding
records the observable effects the claims speak about: the number of `fetch`
calls issued and the sequence of `sleep` durations (in milliseconds, as
rationals since `retryDelay / 1000` is float division in the source). -/

/-- The client configuration fields `executeWithRetry` reads. -/
structure ClientConfig where
  timeout : Nat
  maxRetries : Nat
  retryDelay : Nat
  deriving DecidableEq, Repr

/-- Outcome of one `fetch` call: a response (status, `content-type` header,
and the best-effort JSON decoding of the body — a parse failure is the
all-`none` record, matching `.catch(() => ({}))`), an `AbortError` rejection
(the timeout timer fired first), or another transport-level error. -/
inductive FetchOutcome
  | response (status : Nat) (contentType : Option String) (body : ErrorBody)
  | abortError
  | networkError (message : String)
  deriving DecidableEq, Repr

/-- Value returned on the success path: `{}` for missing content-type or a
204 status, otherwise the decoded JSON body. -/
inductive FetchValue
  | emptyObj
  | json (body : ErrorBody)
  deriving DecidableEq, Repr

/-- What `executeWithRetry` can throw: a classified `BitbucketMCPError`, the
locally constructed timeout `Error`, a transport `Error` rethrown as-is, or
the defensive `'Request failed after maximum retries'` `Error`. -/
inductive Thrown
  | typed (e : TypedError)
  | timeoutError (message : String)
  | netError (message : String)
  | genericError (message : String)
  deriving DecidableEq, Repr

instance : DecidableEq (Except Thrown FetchValue) := fun x y =>
  match x, y with
  | .ok a, .ok b => if h : a = b then .isTrue (by rw [h]) else .isFalse (by simp [h])
  | .error a, .error b => if h : a = b then .isTrue (by rw [h]) else .isFalse (by simp [h])
  | .ok _, .error _ => .isFalse (by simp)
  | .error _, .ok _ => .isFalse (by simp)

/-- Observable outcome of a run: the returned value or thrown error, the
number of `fetch` calls issued, and the `sleep` durations in order. -/
structure RunResult where
  result : Except Thrown FetchValue
  calls : Nat
  sleepsMs : List ℚ
  deriving DecidableEq, Repr

/-- The `while (retryCount <= this.maxRetries)` loop of `executeWithRetry`,
recursing structurally on the remaining attempt budget
`fuel = maxRetries + 1 - retryCount` (the guard `retryCount <= maxRetries`
is `fuel > 0`; both `continue` paths increment `retryCount`). `timeoutOpt`
is `init.timeout` (the configured `this.timeout` applies when absent). A
`throw` out of the `try` block — the client-error throw, the server-error
throw, or a transport rejection — lands in the `catch` clause, which
rethrows timeouts, and otherwise sleeps `retryDelay * 2^retryCount` and
retries while `retryCount < maxRetries`. -/
def executeWithRetryLoop (cfg : ClientConfig) (url : String)
    (timeoutOpt : Option Nat) (trace : Nat → FetchOutcome) :
    (fuel : Nat) → (retryCount : Nat) → (lastError : Option Thrown) → RunResult
  | 0, _, lastError =>
      -- loop exhausted:
      -- `throw lastError ?? new Error('Request failed after maximum retries')`
      { result := .error
          (lastError.getD (.genericError "Request failed after maximum retries")),
        calls := 0, sleepsMs := [] }
  | fuel + 1, retryCount, _ =>
      match trace retryCount with
      | .response status contentType body =>
          if 200 ≤ status ∧ status < 300 then
            -- response.ok: empty-response handling, then the decoded JSON
            { result := .ok (if contentType = none ∨ status = 204 then .emptyObj
                             else .json body),
              calls := 1, sleepsMs := [] }
          else
            let error := parseAPIError status url body
            if 400 ≤ status ∧ status < 500 ∧ status ≠ 429 then
              -- `throw error`: caught by the catch clause below in the source
              if retryCount < cfg.maxRetries then
                let rest := executeWithRetryLoop cfg url timeoutOpt trace
                  fuel (retryCount + 1) (some (.typed error))
                { result := rest.result, calls := 1 + rest.calls,
                  sleepsMs := ((cfg.retryDelay * 2 ^ retryCount : ℕ) : ℚ) :: rest.sleepsMs }
              else
                { result := .error (.typed error), calls := 1, sleepsMs := [] }
            else
              match error with
              | .rateLimit ra =>
                  -- rate-limit branch: sleep `retryAfter ?? retryDelay/1000`
                  -- seconds, record the error, continue
                  let retryAfter : ℚ := (ra.map (Nat.cast)).getD ((cfg.retryDelay : ℚ) / 1000)
                  let rest := executeWithRetryLoop cfg url timeoutOpt trace
                    fuel (retryCount + 1) (some (.typed error))
                  { result := rest.result, calls := 1 + rest.calls,
                    sleepsMs := (retryAfter * 1000) :: rest.sleepsMs }
              | _ =>
                  -- `throw error` (5xx and other unclassified statuses):
                  -- caught by the catch clause
                  if retryCount < cfg.maxRetries then
                    let rest := executeWithRetryLoop cfg url timeoutOpt trace
                      fuel (retryCount + 1) (some (.typed error))
                    { result := rest.result, calls := 1 + rest.calls,
                      sleepsMs := ((cfg.retryDelay * 2 ^ retryCount : ℕ) : ℚ) :: rest.sleepsMs }
                  else
                    { result := .error (.typed error), calls := 1, sleepsMs := [] }
      | .abortError =>
          -- catch clause, `error.name === 'AbortError'`: throw the timeout
          -- error without consuming retry budget
          { result := .error (.timeoutError
              ("Request timeout after " ++ toString (timeoutOpt.getD cfg.timeout) ++ "ms")),
            calls := 1, sleepsMs := [] }
      | .networkError message =>
          -- catch clause on a transport error
          if retryCount < cfg.maxRetries then
            let rest := executeWithRetryLoop cfg url timeoutOpt trace
              fuel (retryCount + 1) (some (.netError message))
            { result := rest.result, calls := 1 + rest.calls,
              sleepsMs := ((cfg.retryDelay * 2 ^ retryCount : ℕ) : ℚ) :: rest.sleepsMs }
          else
            { result := .error (.netError message), calls := 1, sleepsMs := [] }

/-- Source `executeWithRetry`: enter the loop with `retryCount = 0`, no
`lastError`, and the full attempt budget `maxRetries + 1`. -/
def executeWithRetry (cfg : ClientConfig) (url : String)
    (timeoutOpt : Option Nat) (trace : Nat → FetchOutcome) : RunResult :=
  executeWithRetryLoop cfg url timeoutOpt trace (cfg.maxRetries + 1) 0 none

/-! ## Byte-level helpers

`Buffer.from(s).toString('base64')` encodes the UTF-8 bytes of `s` in
standard base64. Bit operations are written with `/`, `%`, `*` and `+` on
disjoint bit ranges (e.g. `a >>> 2` is `a / 4`, `0x80 | x` with `x < 64` is
`128 + x`). -/

/-- The standard base64 alphabet. -/
def base64Alphabet : String :=
  "ABCDEFGHIJKLMNOPQRSTUVWXYZabcdefghijklmnopqrstuvwxyz0123456789+/"

/-- The base64 digit for a 6-bit value. -/
def base64Digit (n : Nat) : Char := base64Alphabet.data.getD n '='

/-- Base64-encode a byte list, three bytes to four digits, `=`-padded. -/
def base64EncodeBytes : List Nat → List Char
  | [] => []
  | [a] =>
      [base64Digit (a / 4), base64Digit (a % 4 * 16), '=', '=']
  | [a, b] =>
      [base64Digit (a / 4), base64Digit (a % 4 * 16 + b / 16),
       base64Digit (b % 16 * 4), '=']
  | a :: b :: c :: rest =>
      base64Digit (a / 4) :: base64Digit (a % 4 * 16 + b / 16) ::
        base64Digit (b % 16 * 4 + c / 64) :: base64Digit (c % 64) ::
        base64EncodeBytes rest

/-- UTF-8 encoding of one character (code point to one to four bytes). -/
def utf8EncodeCharBytes (ch : Char) : List Nat :=
  let n := ch.toNat
  if n < 128 then [n]
  else if n < 2048 then [192 + n / 64, 128 + n % 64]
  else if n < 65536 then [224 + n / 4096, 128 + n / 64 % 64, 128 + n % 64]
  else [240 + n / 262144, 128 + n / 4096 % 64, 128 + n / 64 % 64, 128 + n % 64]

/-- The UTF-8 bytes of a string. -/
def utf8Bytes (s : String) : List Nat := s.data.flatMap utf8EncodeCharBytes

/-- Source `Buffer.from(s).toString('base64')`. -/
def bufferBase64 (s : String) : String := String.mk (base64EncodeBytes (utf8Bytes s))

/-! ## Auth providers

Each provider class becomes a state structure plus a `construct` function
(the constructor, returning `Except` since it can throw) and a
`getAuthHeader` function on the constructed state. -/

/-- Source `ApiTokenConfig`. -/
structure ApiTokenConfig where
  token : String
  userEmail : String
  deriving DecidableEq, Repr

/-- The fields of a constructed `ApiTokenAuthProvider`. -/
structure ApiTokenState where
  token : String
  userEmail : String
  deriving DecidableEq, Repr

namespace ApiTokenAuthProvider

/-- The `ApiTokenAuthProvider` constructor: `!config.token` and
`!config.userEmail` are string truthiness, so an empty field throws. -/
def construct (config : ApiTokenConfig) : Except TypedError ApiTokenState :=
  if config.token = "" then
    .error (.authentication "API token is required")
  else if config.userEmail = "" then
    .error (.authentication
      ("User email is required for API token authentication. " ++
       "API tokens use Basic HTTP Authentication where username is your Atlassian email."))
  else
    .ok { token := config.token, userEmail := config.userEmail }

/-- Source `getAuthHeader`: Basic auth over `email:token`. -/
def getAuthHeader (st : ApiTokenState) : String :=
  "Basic " ++ bufferBase64 (st.userEmail ++ ":" ++ st.token)

end ApiTokenAuthProvider

/-- Source `AccessTokenConfig`. -/
structure AccessTokenConfig where
  token : String
  deriving DecidableEq, Repr

/-- The `tokenType` parameter of `AccessTokenAuthProvider`. -/
inductive AccessTokenType
  | repository
  | workspace
  | project
  deriving DecidableEq, Repr

/-- String interpolation of the token type. -/
def AccessTokenType.str : AccessTokenType → String
  | .repository => "repository"
  | .workspace => "workspace"
  | .project => "project"

/-- The fields of a constructed `AccessTokenAuthProvider`. -/
structure AccessTokenState where
  token : String
  tokenType : AccessTokenType
  deriving DecidableEq, Repr

namespace AccessTokenAuthProvider

/-- The `AccessTokenAuthProvider` constructor (`tokenType` defaults to
`'repository'` at call sites that omit it). -/
def construct (config : AccessTokenConfig) (tokenType : AccessTokenType) :
    Except TypedError AccessTokenState :=
  if config.token = "" then
    .error (.authentication (tokenType.str ++ " access token is required"))
  else
    .ok { token := config.token, tokenType := tokenType }

/-- Source `getAuthHeader`: Bearer auth. -/
def getAuthHeader (st : AccessTokenState) : String :=
  "Bearer " ++ st.token

end AccessTokenAuthProvider

/-- Source `BasicAuthConfig`. -/
structure BasicAuthConfig where
  username : String
  password : String
  deriving DecidableEq, Repr

/-- The fields of a constructed `BasicAuthProvider`. -/
structure BasicAuthState where
  username : String
  password : String
  deriving DecidableEq, Repr

namespace BasicAuthProvider

/-- The `BasicAuthProvider` constructor. -/
def construct (config : BasicAuthConfig) : Except TypedError BasicAuthState :=
  if config.username = "" then
    .error (.authentication "Username is required for basic authentication")
  else if config.password = "" then
    .error (.authentication "Password is required for basic authentication")
  else
    .ok { username := config.username, password := config.password }

/-- Source `getAuthHeader`: Basic auth over `username:password`. -/
def getAuthHeader (st : BasicAuthState) : String :=
  "Basic " ++ bufferBase64 (st.username ++ ":" ++ st.password)

end BasicAuthProvider

/-! ## OAuth2 provider (`src/auth/oauth2.ts`)

The provider's mutable token state is threaded explicitly. Time is an
explicit `now` in milliseconds since the epoch; the token endpoint is
modelled by the outcome of the single `fetch` a refresh performs, and every
operation additionally returns the number of token-endpoint calls it made. -/

def BITBUCKET_TOKEN_URL : String := "https://bitbucket.org/site/oauth2/access_token"

/-- Source `OAuthConfig`: `clientId`/`clientSecret` are required strings (callers
may pass `''`), the rest optional. -/
structure OAuthConfig where
  clientId : String
  clientSecret : String
  accessToken : Option String := none
  refreshToken : Option String := none
  tokenUrl : Option String := none
  deriving DecidableEq, Repr

/-- Source `OAuthTokenResponse` from the token endpoint. -/
structure OAuthTokenResponse where
  access_token : String
  token_type : String
  expires_in : Option Int := none
  refresh_token : Option String := none
  scopes : Option String := none
  deriving DecidableEq, Repr

/-- Outcome of one token-endpoint `fetch`: a 2xx JSON response, or a non-ok
response with its body text. -/
inductive TokenEndpointResult
  | success (data : OAuthTokenResponse)
  | httpError (text : String)
  deriving DecidableEq, Repr

/-- The fields of a constructed `OAuth2AuthProvider`; `tokenExpiry` is the
`Date` in milliseconds since the epoch. -/
structure OAuth2State where
  clientId : String
  clientSecret : String
  accessToken : Option String
  refreshToken : Option String
  tokenExpiry : Option Int
  tokenUrl : String
  deriving DecidableEq, Repr

namespace OAuth2AuthProvider

/-- The `OAuth2AuthProvider` constructor: throws when client id or secret is
falsy and no access token is present. -/
def construct (config : OAuthConfig) : Except TypedError OAuth2State :=
  if (config.clientId = "" ∨ config.clientSecret = "") ∧ jsFalsyOpt config.accessToken then
    .error (.authentication "OAuth requires either client credentials or an access token")
  else
    .ok { clientId := config.clientId, clientSecret := config.clientSecret,
          accessToken := config.accessToken, refreshToken := config.refreshToken,
          tokenExpiry := none, tokenUrl := config.tokenUrl.getD BITBUCKET_TOKEN_URL }

/-- Source `updateTokens(data)`: store the access token, overwrite the refresh
token only when one is returned, and on `expires_in` set the expiry to
`now + (expires_in - 300) * 1000` — the 5-minute safety buffer. -/
def updateTokens (st : OAuth2State) (now : Int) (data : OAuthTokenResponse) :
    OAuth2State :=
  { st with
    accessToken := some data.access_token,
    refreshToken :=
      if jsFalsyOpt data.refresh_token then st.refreshToken else data.refresh_token,
    tokenExpiry :=
      match data.expires_in with
      | some e => if e ≠ 0 then some (now + (e - 300) * 1000) else st.tokenExpiry
      | none => st.tokenExpiry }

/-- Source `refreshAccessToken()`: one token-endpoint call when a refresh token is
present; a non-ok response surfaces as `AuthenticationError`. -/
def refreshAccessToken (st : OAuth2State) (now : Int)
    (endpoint : TokenEndpointResult) : Except TypedError OAuth2State × Nat :=
  if jsFalsyOpt st.refreshToken then
    (.error (.authentication "No refresh token available"), 0)
  else
    match endpoint with
    | .success data => (.ok (updateTokens st now data), 1)
    | .httpError text =>
        (.error (.authentication ("Failed to refresh OAuth token: " ++ text)), 1)

/-- Source `fetchClientCredentialsToken()`: one token-endpoint call. -/
def fetchClientCredentialsToken (st : OAuth2State) (now : Int)
    (endpoint : TokenEndpointResult) : Except TypedError OAuth2State × Nat :=
  match endpoint with
  | .success data => (.ok (updateTokens st now data), 1)
  | .httpError text =>
      (.error (.authentication ("Failed to obtain OAuth token: " ++ text)), 1)

/-- The guard `this.accessToken && this.tokenExpiry && new Date() < this.tokenExpiry`
(a `Date` object is always truthy once set). -/
def tokenStillValid (st : OAuth2State) (now : Int) : Bool :=
  !jsFalsyOpt st.accessToken &&
    (match st.tokenExpiry with
      | some exp => now < exp
      | none => false)

/-- Source `ensureValidToken()`: cached-token fast path, then refresh-token path,
then client-credentials path, then the bare-access-token path, else
`AuthenticationError`. -/
def ensureValidToken (st : OAuth2State) (now : Int)
    (endpoint : TokenEndpointResult) : Except TypedError OAuth2State × Nat :=
  if tokenStillValid st now then (.ok st, 0)
  else if !jsFalsyOpt st.refreshToken then refreshAccessToken st now endpoint
  else if st.clientId ≠ "" ∧ st.clientSecret ≠ "" then
    fetchClientCredentialsToken st now endpoint
  else if !jsFalsyOpt st.accessToken then (.ok st, 0)
  else (.error (.authentication "No valid authentication method available"), 0)

/-- Source `getAuthHeader()`: `ensureValidToken` then `` `Bearer ${this.accessToken}` ``.
Returns the header, the updated state, and the token-endpoint call count. -/
def getAuthHeader (st : OAuth2State) (now : Int)
    (endpoint : TokenEndpointResult) :
    Except TypedError (String × OAuth2State) × Nat :=
  match ensureValidToken st now endpoint with
  | (.ok st', n) => (.ok ("Bearer " ++ st'.accessToken.getD "undefined", st'), n)
  | (.error e, n) => (.error e, n)

end OAuth2AuthProvider

/-! ## `BitbucketClient.buildUrl` (`src/api/client.ts`) -/

/-- Source `String(value)` for the `string | number | boolean` parameter values,
already rendered; `none` is `undefined`. -/
abbrev ParamValue := Option String

/-- Source `s.startsWith(pre)`, expressed over the character lists so that it
evaluates in the kernel. -/
def strStartsWith (s pre : String) : Bool := pre.data.isPrefixOf s.data

/-- Source `buildUrl(endpoint, params?)`: an absolute endpoint (a pagination `next`
link) is returned verbatim; otherwise the endpoint is resolved against
`baseUrl + '/'` and the defined params are set as query parameters. The
relative branch models `new URL` resolution as concatenation of the base
(ending in `/`) with the endpoint stripped of a leading `/`, and
`searchParams.set` as appending `key=value` pairs in order (URL
percent-encoding is not modelled; no claim depends on it). -/
def buildUrl (baseUrl : String) (endpoint : String)
    (params : List (String × ParamValue)) : String :=
  if strStartsWith endpoint "http://" || strStartsWith endpoint "https://" then
    endpoint
  else
    let rel := if strStartsWith endpoint "/" then endpoint.drop 1 else endpoint
    let defined := params.filterMap fun kv => kv.2.map fun s => (kv.1, s)
    baseUrl ++ "/" ++ rel ++
      (if defined.isEmpty then ""
       else "?" ++ String.intercalate "&" (defined.map fun kv => kv.1 ++ "=" ++ kv.2))

/-! ## Theorems -/

/-- C6 counterexample: at status 403 the classifier returns an
`AuthorizationError`, not a generic API error carrying the status and the
endpoint — its `code` is `AUTHORIZATION_ERROR`, not `BITBUCKET_API_ERROR`,
and the endpoint appears nowhere in it; so "any other status yields a
generic API error" fails at 403. -/
theorem parseAPIError_403_not_generic :
    parseAPIError 403 "/repositories/acme" {} = .authorization "Unknown error" ∧
    (parseAPIError 403 "/repositories/acme" {}).code = "AUTHORIZATION_ERROR" ∧
    (parseAPIError 403 "/repositories/acme" {}).code ≠ "BITBUCKET_API_ERROR" := by
  refine ⟨rfl, rfl, by decide⟩

/-- C6 (amended): `parseAPIError` never throws (it is a total function) and
is determined by status alone: 401 yields `AuthenticationError`, 403 yields
`AuthorizationError`, 404 yields a `NotFoundError` whose message contains
the endpoint, 429 yields `RateLimitError` with `retryAfter` equal to
`body.retry_after` when present and `undefined` otherwise, and any other
status yields a generic API error carrying the status and endpoint, with
message from `body.error.message`, else `body.message`, else
`"Unknown error"`. -/
theorem parseAPIError_classifies_by_status (s : Nat) (e : String) (b : ErrorBody) :
    parseAPIError 401 e b =
      .authentication ((b.errorMessage.orElse fun _ => b.message).getD "Unknown error") ∧
    parseAPIError 403 e b =
      .authorization ((b.errorMessage.orElse fun _ => b.message).getD "Unknown error") ∧
    parseAPIError 404 e b = .notFound "Resource" e ∧
    (∃ pre, (parseAPIError 404 e b).message = pre ++ e) ∧
    parseAPIError 429 e b = .rateLimit b.retry_after ∧
    (s ≠ 401 → s ≠ 403 → s ≠ 404 → s ≠ 429 →
      parseAPIError s e b =
        .api ((b.errorMessage.orElse fun _ => b.message).getD "Unknown error") s e) := by
  refine ⟨rfl, rfl, rfl, ⟨"Resource not found: ", ?_⟩, rfl, ?_⟩
  · show ("Resource" ++ " not found: ") ++ e = "Resource not found: " ++ e
    congr 1
  · intro h1 h2 h3 h4
    simp [parseAPIError, h1, h2, h3, h4]

/-- C6 witness: the generic branch evaluated at status 500. -/
theorem parseAPIError_classifies_by_status_witness :
    parseAPIError 500 "/pipelines" { message := some "boom" } =
      .api "boom" 500 "/pipelines" :=
  (parseAPIError_classifies_by_status 500 "/pipelines"
    { message := some "boom" }).2.2.2.2.2
    (by decide) (by decide) (by decide) (by decide)

/-- C8: `buildPaginationParams` always sets `pagelen` to the string of
`min(requested pagelen ?? 25, 100)`, includes a `page` key only when `page`
was explicitly given, and on the three concrete inputs of the claim yields
exactly `{pagelen: "25"}`, `{pagelen: "100"}` and
`{page: "3", pagelen: "10"}`. -/
theorem buildPaginationParams_spec (options : Option PaginationOptions) :
    (buildPaginationParams options).lookup "pagelen" =
      some (toString (min ((options.bind (·.pagelen)).getD 25) 100)) ∧
    ((buildPaginationParams options).lookup "page" ≠ none →
      ∃ p, options.bind (·.page) = some p) ∧
    buildPaginationParams none = [("pagelen", "25")] ∧
    buildPaginationParams (some { pagelen := some 200 }) = [("pagelen", "100")] ∧
    buildPaginationParams (some { page := some 3, pagelen := some 10 }) =
      [("page", "3"), ("pagelen", "10")] := by
  refine ⟨?_, ?_, by decide, by decide, by decide⟩ <;>
    rcases ho : options.bind (·.page) with _ | p
  · simp [buildPaginationParams, ho, List.lookup, DEFAULT_PAGE_LENGTH, MAX_PAGE_LENGTH]
  · by_cases hp : p = 0 <;>
      simp [buildPaginationParams, ho, hp, List.lookup, DEFAULT_PAGE_LENGTH, MAX_PAGE_LENGTH]
  · simp [buildPaginationParams, ho, List.lookup]
  · intro _
    exact ⟨p, rfl⟩

/-- C8 witness: the general clauses evaluated at `{pagelen: 10, page: 3}`. -/
theorem buildPaginationParams_spec_witness :
    (buildPaginationParams (some { page := some 3, pagelen := some 10 })).lookup "pagelen" =
      some "10" ∧
    ∃ p, (some { page := some 3, pagelen := some 10 } : Option PaginationOptions).bind
      (·.page) = some p :=
  ⟨(buildPaginationParams_spec (some { page := some 3, pagelen := some 10 })).1,
   (buildPaginationParams_spec (some { page := some 3, pagelen := some 10 })).2.1
     (by decide)⟩

/-- C10: for every endpoint beginning with `http://` or `https://` (the form
of server-returned pagination `next` links), `buildUrl` returns the endpoint
unchanged for every params record, so the supplied query parameters are
silently dropped. -/
theorem buildUrl_absolute_returns_endpoint (baseUrl endpoint : String)
    (params params' : List (String × ParamValue))
    (h : strStartsWith endpoint "http://" = true ∨ strStartsWith endpoint "https://" = true) :
    buildUrl baseUrl endpoint params = endpoint ∧
    buildUrl baseUrl endpoint params = buildUrl baseUrl endpoint params' := by
  have hb : (strStartsWith endpoint "http://" || strStartsWith endpoint "https://") = true := by
    rcases h with h | h <;> simp [h]
  constructor <;> simp [buildUrl, hb]

/-- C10 witness: a pagination `next` link with a `pagelen` param supplied. -/
theorem buildUrl_absolute_returns_endpoint_witness :
    buildUrl "https://api.bitbucket.org/2.0"
      "https://api.bitbucket.org/2.0/repositories/acme?page=2"
      [("pagelen", some "50")] =
      "https://api.bitbucket.org/2.0/repositories/acme?page=2" :=
  (buildUrl_absolute_returns_endpoint "https://api.bitbucket.org/2.0"
    "https://api.bitbucket.org/2.0/repositories/acme?page=2"
    [("pagelen", some "50")] [] (Or.inr (by decide))).1

/-- C7: for every valid (email, token) pair — both nonempty, so
construction succeeds — the email+token provider's `getAuthHeader` returns
exactly `"Basic "` followed by the base64 encoding of
`email + ":" + token`; no restriction on `':'`, `'@'` or other characters
in either field. -/
theorem apiToken_getAuthHeader_spec (email tok : String)
    (he : email ≠ "") (ht : tok ≠ "") :
    ∃ st, ApiTokenAuthProvider.construct { token := tok, userEmail := email } = .ok st ∧
      ApiTokenAuthProvider.getAuthHeader st =
        "Basic " ++ bufferBase64 (email ++ ":" ++ tok) := by
  refine ⟨{ token := tok, userEmail := email }, ?_, rfl⟩
  simp [ApiTokenAuthProvider.construct, he, ht]

/-- C7 witness: a pair with `':'` and `'@'` embedded in both fields. -/
theorem apiToken_getAuthHeader_spec_witness :
    ∃ st, ApiTokenAuthProvider.construct
        { token := "to:k@n", userEmail := "user@ex:ample.com" } = .ok st ∧
      ApiTokenAuthProvider.getAuthHeader st =
        "Basic " ++ bufferBase64 ("user@ex:ample.com" ++ ":" ++ "to:k@n") :=
  apiToken_getAuthHeader_spec "user@ex:ample.com" "to:k@n" (by decide) (by decide)

/-- C9: for each of the four auth provider variants, construction with a
missing (empty/absent) required credential field throws an error whose
message names the missing field, and construction with all required fields
present never throws. -/
theorem authProvider_construction_spec (tok em un pw : String)
    (tt : AccessTokenType) (cfg : OAuthConfig) :
    ApiTokenAuthProvider.construct { token := "", userEmail := em } =
      .error (.authentication "API token is required") ∧
    (tok ≠ "" → ApiTokenAuthProvider.construct { token := tok, userEmail := "" } =
      .error (.authentication
        ("User email is required for API token authentication. " ++
         "API tokens use Basic HTTP Authentication where username is your Atlassian email."))) ∧
    (tok ≠ "" → em ≠ "" → ApiTokenAuthProvider.construct { token := tok, userEmail := em } =
      .ok { token := tok, userEmail := em }) ∧
    AccessTokenAuthProvider.construct { token := "" } tt =
      .error (.authentication (tt.str ++ " access token is required")) ∧
    (tok ≠ "" → AccessTokenAuthProvider.construct { token := tok } tt =
      .ok { token := tok, tokenType := tt }) ∧
    BasicAuthProvider.construct { username := "", password := pw } =
      .error (.authentication "Username is required for basic authentication") ∧
    (un ≠ "" → BasicAuthProvider.construct { username := un, password := "" } =
      .error (.authentication "Password is required for basic authentication")) ∧
    (un ≠ "" → pw ≠ "" → BasicAuthProvider.construct { username := un, password := pw } =
      .ok { username := un, password := pw }) ∧
    ((cfg.clientId = "" ∨ cfg.clientSecret = "") → jsFalsyOpt cfg.accessToken = true →
      OAuth2AuthProvider.construct cfg =
        .error (.authentication "OAuth requires either client credentials or an access token")) ∧
    ((cfg.clientId ≠ "" ∧ cfg.clientSecret ≠ "") ∨ jsFalsyOpt cfg.accessToken = false →
      ∃ st, OAuth2AuthProvider.construct cfg = .ok st) := by
  refine ⟨rfl, ?_, ?_, ?_, ?_, rfl, ?_, ?_, ?_, ?_⟩
  · intro ht
    simp [ApiTokenAuthProvider.construct, ht]
  · intro ht hm
    simp [ApiTokenAuthProvider.construct, ht, hm]
  · rfl
  · intro ht
    simp [AccessTokenAuthProvider.construct, ht]
  · intro hu
    simp [BasicAuthProvider.construct, hu]
  · intro hu hp
    simp [BasicAuthProvider.construct, hu, hp]
  · intro hid hat
    simp [OAuth2AuthProvider.construct, hid, hat]
  · intro hok
    refine ⟨{ clientId := cfg.clientId, clientSecret := cfg.clientSecret,
              accessToken := cfg.accessToken, refreshToken := cfg.refreshToken,
              tokenExpiry := none, tokenUrl := cfg.tokenUrl.getD BITBUCKET_TOKEN_URL }, ?_⟩
    unfold OAuth2AuthProvider.construct
    rcases hok with ⟨h1, h2⟩ | h3
    · simp [h1, h2]
    · simp [h3]

/-- C9 witness: all four variants constructed with complete credentials,
and the failure branches needing nonempty side conditions evaluated. -/
theorem authProvider_construction_spec_witness :
    ApiTokenAuthProvider.construct { token := "t", userEmail := "" } =
      .error (.authentication
        ("User email is required for API token authentication. " ++
         "API tokens use Basic HTTP Authentication where username is your Atlassian email.")) ∧
    ApiTokenAuthProvider.construct { token := "t", userEmail := "e@x" } =
      .ok { token := "t", userEmail := "e@x" } ∧
    AccessTokenAuthProvider.construct { token := "t" } .repository =
      .ok { token := "t", tokenType := .repository } ∧
    BasicAuthProvider.construct { username := "u", password := "p" } =
      .ok { username := "u", password := "p" } ∧
    ∃ st, OAuth2AuthProvider.construct
      { clientId := "id", clientSecret := "sec" } = .ok st := by
  have h := authProvider_construction_spec "t" "e@x" "u" "p" .repository
    { clientId := "id", clientSecret := "sec" }
  exact ⟨h.2.1 (by decide), h.2.2.1 (by decide) (by decide),
    h.2.2.2.2.1 (by decide), h.2.2.2.2.2.2.2.1 (by decide) (by decide),
    h.2.2.2.2.2.2.2.2.2 (Or.inl ⟨by decide, by decide⟩)⟩

/-- C1: evaluating `executeWithRetry` at the default configuration
(`maxRetries = 3`, `retryDelay = 1000`) against a server that answers 404 on
every attempt: the typed `NotFoundError` thrown inside the `try` block is
caught by the surrounding `catch` clause, so the client issues 4 HTTP calls
with exponential-backoff sleeps of 1000, 2000 and 4000 ms before the error
propagates — not exactly one call as the claim states. -/
theorem executeWithRetry_404_is_retried :
    (executeWithRetry { timeout := 30000, maxRetries := 3, retryDelay := 1000 }
        "https://api.bitbucket.org/2.0/missing" (some 30000)
        (fun _ => .response 404 (some "application/json") {})).calls = 4 ∧
    (executeWithRetry { timeout := 30000, maxRetries := 3, retryDelay := 1000 }
        "https://api.bitbucket.org/2.0/missing" (some 30000)
        (fun _ => .response 404 (some "application/json") {})).calls ≠ 1 ∧
    (executeWithRetry { timeout := 30000, maxRetries := 3, retryDelay := 1000 }
        "https://api.bitbucket.org/2.0/missing" (some 30000)
        (fun _ => .response 404 (some "application/json") {})).sleepsMs =
      [1000, 2000, 4000] ∧
    (executeWithRetry { timeout := 30000, maxRetries := 3, retryDelay := 1000 }
        "https://api.bitbucket.org/2.0/missing" (some 30000)
        (fun _ => .response 404 (some "application/json") {})).result =
      .error (.typed (.notFound "Resource" "https://api.bitbucket.org/2.0/missing")) := by
  refine ⟨by decide, by decide, by decide, by decide⟩

/-- C3: at any attempt (any remaining budget `fuel`, any attempt index
`rc`), if the per-attempt timer fires before the HTTP response
(the `fetch` rejects with `AbortError`), the run ends immediately with a
timeout error whose message contains the configured duration in ms: exactly
this one HTTP call is made, no sleep and no further attempt follows,
regardless of the remaining retry budget. -/
theorem executeWithRetry_timeout_is_fatal (cfg : ClientConfig) (url : String)
    (timeoutOpt : Option Nat) (trace : Nat → FetchOutcome)
    (fuel rc : Nat) (lastError : Option Thrown)
    (h : trace rc = .abortError) :
    executeWithRetryLoop cfg url timeoutOpt trace (fuel + 1) rc lastError =
      { result := .error (.timeoutError
          ("Request timeout after " ++ toString (timeoutOpt.getD cfg.timeout) ++ "ms")),
        calls := 1, sleepsMs := [] } ∧
    ∃ pre post,
      "Request timeout after " ++ toString (timeoutOpt.getD cfg.timeout) ++ "ms" =
        pre ++ toString (timeoutOpt.getD cfg.timeout) ++ post := by
  refine ⟨?_, "Request timeout after ", "ms", rfl⟩
  simp [executeWithRetryLoop, h]

/-- C3 witness: a timeout on the very first attempt of a default-configured
client with a 5000 ms per-call override. -/
theorem executeWithRetry_timeout_is_fatal_witness :
    executeWithRetryLoop { timeout := 30000, maxRetries := 3, retryDelay := 1000 }
        "https://api.bitbucket.org/2.0/slow" (some 5000) (fun _ => .abortError)
        4 0 none =
      { result := .error (.timeoutError "Request timeout after 5000ms"),
        calls := 1, sleepsMs := [] } :=
  (executeWithRetry_timeout_is_fatal
    { timeout := 30000, maxRetries := 3, retryDelay := 1000 }
    "https://api.bitbucket.org/2.0/slow" (some 5000) (fun _ => .abortError)
    3 0 none rfl).1

/-- Helper for C4: against a server answering 429 on every attempt, the
loop sleeps `retryAfter ?? retryDelay/1000` seconds before each of its
`fuel` attempts and finally surfaces the `RateLimitError` as `lastError`. -/
theorem executeWithRetryLoop_const429 (cfg : ClientConfig) (url : String)
    (timeoutOpt : Option Nat) (ct : Option String) (body : ErrorBody) :
    ∀ (fuel rc : Nat) (lastError : Option Thrown), 0 < fuel →
    executeWithRetryLoop cfg url timeoutOpt (fun _ => .response 429 ct body)
        fuel rc lastError =
      { result := .error (.typed (.rateLimit body.retry_after)),
        calls := fuel,
        sleepsMs := List.replicate fuel
          (((body.retry_after.map (Nat.cast : Nat → ℚ)).getD
              ((cfg.retryDelay : ℚ) / 1000)) * 1000) } := by
  intro fuel
  induction fuel with
  | zero => intro rc lastError h; omega
  | succ f ih =>
    intro rc lastError _
    rcases Nat.eq_zero_or_pos f with hf | hf
    · subst hf
      simp [executeWithRetryLoop, parseAPIError]
    · have := ih (rc + 1) (some (.typed (.rateLimit body.retry_after))) hf
      simp [executeWithRetryLoop, parseAPIError, this, List.replicate_succ]
      omega

/-- C4: a 429 response at any attempt is classified as a `RateLimitError`
and retried: the loop sleeps `retryAfter * 1000` ms when the server provided
`retry_after` and `retryDelay / 1000 * 1000` ms otherwise, then continues at
the next attempt index; and against a persistent 429 the client retries on
every attempt up to the `maxRetries` budget — `maxRetries + 1` HTTP calls —
before the `RateLimitError` surfaces. -/
theorem executeWithRetry_429_retries (cfg : ClientConfig) (url : String)
    (timeoutOpt : Option Nat) (trace : Nat → FetchOutcome) (fuel rc : Nat)
    (lastError : Option Thrown) (ct : Option String) (body : ErrorBody)
    (h : trace rc = .response 429 ct body) :
    (executeWithRetryLoop cfg url timeoutOpt trace (fuel + 1) rc lastError =
      { result := (executeWithRetryLoop cfg url timeoutOpt trace fuel (rc + 1)
          (some (.typed (.rateLimit body.retry_after)))).result,
        calls := 1 + (executeWithRetryLoop cfg url timeoutOpt trace fuel (rc + 1)
          (some (.typed (.rateLimit body.retry_after)))).calls,
        sleepsMs :=
          ((body.retry_after.map (Nat.cast : Nat → ℚ)).getD
              ((cfg.retryDelay : ℚ) / 1000)) * 1000 ::
            (executeWithRetryLoop cfg url timeoutOpt trace fuel (rc + 1)
              (some (.typed (.rateLimit body.retry_after)))).sleepsMs }) ∧
    (∀ n, body.retry_after = some n →
      ((body.retry_after.map (Nat.cast : Nat → ℚ)).getD
          ((cfg.retryDelay : ℚ) / 1000)) * 1000 = (n : ℚ) * 1000) ∧
    (body.retry_after = none →
      ((body.retry_after.map (Nat.cast : Nat → ℚ)).getD
          ((cfg.retryDelay : ℚ) / 1000)) * 1000 = (cfg.retryDelay : ℚ)) ∧
    (executeWithRetry cfg url timeoutOpt (fun _ => .response 429 ct body) =
      { result := .error (.typed (.rateLimit body.retry_after)),
        calls := cfg.maxRetries + 1,
        sleepsMs := List.replicate (cfg.maxRetries + 1)
          (((body.retry_after.map (Nat.cast : Nat → ℚ)).getD
              ((cfg.retryDelay : ℚ) / 1000)) * 1000) }) := by
  refine ⟨?_, ?_, ?_, ?_⟩
  · simp [executeWithRetryLoop, h, parseAPIError]
  · intro n hn
    simp [hn]
  · intro hn
    have h1000 : (1000 : ℚ) ≠ 0 := by norm_num
    simp [hn, div_mul_cancel₀ _ h1000]
  · exact executeWithRetryLoop_const429 cfg url timeoutOpt ct body
      (cfg.maxRetries + 1) 0 none (Nat.succ_pos _)

/-- C4 witness: a server-provided `retry_after: 2` at attempt 0 of a
default-configured client sleeps 2000 ms before the retry. -/
theorem executeWithRetry_429_retries_witness :
    (executeWithRetryLoop { timeout := 30000, maxRetries := 3, retryDelay := 1000 }
        "https://api.bitbucket.org/2.0/limited" none
        (fun _ => .response 429 (some "application/json") { retry_after := some 2 })
        4 0 none).sleepsMs.head? = some 2000 := by
  have h := (executeWithRetry_429_retries
    { timeout := 30000, maxRetries := 3, retryDelay := 1000 }
    "https://api.bitbucket.org/2.0/limited" none
    (fun _ => .response 429 (some "application/json") { retry_after := some 2 })
    3 0 none (some "application/json") { retry_after := some 2 } rfl).1
  rw [h]
  norm_num

/-- Helper for C5: structural properties of the page-walking loop. With
budget `fuel` starting at page `p`: at most `fuel` batches are yielded, the
`i`-th batch is the `values` of the fetch at page `p + i`, every batch
before the last came from a response with a truthy `next` link, if the walk
stopped before exhausting the budget the last response's `next` was falsy
(absent or the empty string), and a positive budget yields at least one
batch. -/
theorem paginateResultsLoop_props {T : Type}
    (f : Int → Int → PaginatedResponse T) (pl : Int) :
    ∀ (fuel : Nat) (p : Int),
    (paginateResultsLoop f pl fuel p).length ≤ fuel ∧
    (∀ i, i < (paginateResultsLoop f pl fuel p).length →
      (paginateResultsLoop f pl fuel p)[i]? = some (f (p + (i : Int)) pl).values) ∧
    (∀ i, i + 1 < (paginateResultsLoop f pl fuel p).length →
      jsFalsyOpt (f (p + (i : Int)) pl).next = false) ∧
    ((paginateResultsLoop f pl fuel p).length < fuel →
      paginateResultsLoop f pl fuel p ≠ [] →
      jsFalsyOpt (f (p + (((paginateResultsLoop f pl fuel p).length - 1 : Nat) : Int)) pl).next
        = true) ∧
    (0 < fuel → paginateResultsLoop f pl fuel p ≠ []) := by
  intro fuel
  induction fuel with
  | zero =>
    intro p
    refine ⟨by simp [paginateResultsLoop], ?_, ?_, ?_, ?_⟩ <;>
      simp [paginateResultsLoop]
  | succ k ih =>
    intro p
    by_cases h : jsFalsyOpt (f p pl).next = false
    · obtain ⟨ih1, ih2, ih3, ih4, ih5⟩ := ih (p + 1)
      have hL : paginateResultsLoop f pl (k + 1) p =
          (f p pl).values :: paginateResultsLoop f pl k (p + 1) := by
        simp [paginateResultsLoop, h]
      rw [hL]
      refine ⟨by simpa using ih1, ?_, ?_, ?_, by simp⟩
      · intro i hi
        match i with
        | 0 => simp
        | j + 1 =>
            have hj : j < (paginateResultsLoop f pl k (p + 1)).length := by
              simpa using hi
            have := ih2 j hj
            have harg : p + 1 + (j : Int) = p + ((j : Int) + 1) := by ring
            rw [harg] at this
            simpa using this
      · intro i hi
        match i with
        | 0 => simpa using h
        | j + 1 =>
            have hj : j + 1 < (paginateResultsLoop f pl k (p + 1)).length := by
              simpa using hi
            have := ih3 j hj
            have harg : p + 1 + (j : Int) = p + ((j : Int) + 1) := by ring
            rw [harg] at this
            simpa using this
      · intro hlen _
        have hlen' : (paginateResultsLoop f pl k (p + 1)).length < k := by
          simpa using hlen
        have hpos : 0 < k := by omega
        have hne' : paginateResultsLoop f pl k (p + 1) ≠ [] := ih5 hpos
        have hnext := ih4 hlen' hne'
        have hlen1 : 1 ≤ (paginateResultsLoop f pl k (p + 1)).length :=
          List.length_pos.mpr hne'
        have harg : p + 1 + (((paginateResultsLoop f pl k (p + 1)).length - 1 : Nat) : Int) =
            p + (((((f p pl).values :: paginateResultsLoop f pl k (p + 1)).length - 1 : Nat)) : Int) := by
          simp only [List.length_cons]
          omega
        rw [harg] at hnext
        exact hnext
    · have h' : jsFalsyOpt (f p pl).next = true := by simpa using h
      have hL : paginateResultsLoop f pl (k + 1) p = [(f p pl).values] := by
        simp [paginateResultsLoop, h']
      rw [hL]
      refine ⟨by simp, ?_, ?_, ?_, by simp⟩
      · intro i hi
        simp only [List.length_singleton] at hi
        match i with
        | 0 => simp
      · intro i hi
        simp at hi
      · intro _ _
        simp only [List.length_singleton, Nat.sub_self, Nat.cast_zero, add_zero]
        exact h'

/-- C5: for every page-fetch function and options, `paginateResults` starts
at `page ?? 1` with pagelen `min(pagelen ?? 25, 100)`, yields each fetched
page's `values` array in order, and terminates as soon as a response has no
`next` link (absent, or the empty string — `if (!response.next) break` is
JS truthiness) or the `maxPages` cap (default 10) is reached: at most
`maxPages` batches, every batch before the last came from a page with a
truthy `next` link, and a stop before the cap means the last page's `next`
was falsy. In particular a fetcher returning a `next` link on page 1 and no
`next` on page 2 yields exactly the two batches. -/
theorem paginateResults_meets_spec {T : Type}
    (f : Int → Int → PaginatedResponse T) (options : Option PaginationOptions) :
    (paginateResults f options).length ≤ (options.bind (·.maxPages)).getD 10 ∧
    (∀ i, i < (paginateResults f options).length →
      (paginateResults f options)[i]? =
        some (f ((options.bind (·.page)).getD 1 + (i : Int))
          (min ((options.bind (·.pagelen)).getD 25) 100)).values) ∧
    (∀ i, i + 1 < (paginateResults f options).length →
      jsFalsyOpt (f ((options.bind (·.page)).getD 1 + (i : Int))
        (min ((options.bind (·.pagelen)).getD 25) 100)).next = false) ∧
    ((paginateResults f options).length < (options.bind (·.maxPages)).getD 10 →
      paginateResults f options ≠ [] →
      jsFalsyOpt (f ((options.bind (·.page)).getD 1 +
            (((paginateResults f options).length - 1 : Nat) : Int))
        (min ((options.bind (·.pagelen)).getD 25) 100)).next = true) ∧
    (0 < (options.bind (·.maxPages)).getD 10 → paginateResults f options ≠ []) ∧
    (jsFalsyOpt (f ((options.bind (·.page)).getD 1)
        (min ((options.bind (·.pagelen)).getD 25) 100)).next = false →
      jsFalsyOpt (f ((options.bind (·.page)).getD 1 + 1)
        (min ((options.bind (·.pagelen)).getD 25) 100)).next = true →
      2 ≤ (options.bind (·.maxPages)).getD 10 →
      paginateResults f options =
        [(f ((options.bind (·.page)).getD 1)
            (min ((options.bind (·.pagelen)).getD 25) 100)).values,
         (f ((options.bind (·.page)).getD 1 + 1)
            (min ((options.bind (·.pagelen)).getD 25) 100)).values]) := by
  obtain ⟨h1, h2, h3, h4, h5⟩ := paginateResultsLoop_props f
    (min ((options.bind (·.pagelen)).getD 25) 100)
    ((options.bind (·.maxPages)).getD 10)
    ((options.bind (·.page)).getD 1)
  have key : paginateResults f options =
      paginateResultsLoop f
        (min ((options.bind (·.pagelen)).getD 25) 100)
        ((options.bind (·.maxPages)).getD 10)
        ((options.bind (·.page)).getD 1) := rfl
  rw [key]
  refine ⟨h1, h2, h3, h4, h5, ?_⟩
  intro hs hn hm
  set pl := min ((options.bind (·.pagelen)).getD 25) 100 with hpl
  set mp := (options.bind (·.maxPages)).getD 10 with hmp
  set p0 := (options.bind (·.page)).getD 1 with hp0
  set L := paginateResultsLoop f pl mp p0 with hLdef
  have hne : L ≠ [] := h5 (by omega)
  have hge1 : 1 ≤ L.length := List.length_pos.mpr hne
  have hne1 : L.length ≠ 1 := by
    intro h1len
    have hnone := h4 (by omega) hne
    rw [h1len] at hnone
    norm_num at hnone
    rw [hnone] at hs
    simp at hs
  have hle2 : L.length ≤ 2 := by
    by_contra hgt
    push_neg at hgt
    have := h3 1 (by omega)
    rw [show p0 + ((1 : Nat) : Int) = p0 + 1 by norm_num] at this
    rw [hn] at this
    simp at this
  have hlen2 : L.length = 2 := by omega
  apply List.ext_getElem?
  intro i
  match i with
  | 0 =>
      rw [h2 0 (by omega)]
      norm_num
  | 1 =>
      rw [h2 1 (by omega)]
      norm_num
  | j + 2 =>
      rw [List.getElem?_eq_none (by omega), List.getElem?_eq_none (by simp)]

/-- C5 witness: the two-page scenario against a concrete fetcher with
default options. -/
theorem paginateResults_meets_spec_witness :
    paginateResults
      (fun p _ => if p = 1 then
        ({ next := some "https://api.bitbucket.org/2.0/x?page=2",
           values := [p] } : PaginatedResponse Int)
       else { values := [p] }) none = [[1], [2]] := by
  have h := (paginateResults_meets_spec
    (fun p _ => if p = 1 then
      ({ next := some "https://api.bitbucket.org/2.0/x?page=2",
         values := [p] } : PaginatedResponse Int)
     else { values := [p] }) none).2.2.2.2.2
    (by decide) (by decide) (by norm_num)
  rw [h]
  norm_num

/-- C2 counterexample: an `OAuth2AuthProvider` holding only a
`refreshToken` (no client id/secret, no access token) can NOT be
constructed — the constructor throws `AuthenticationError`, because its
guard requires an access token or a client-id+secret pair and never looks
at the refresh token. -/
theorem oauth_refreshToken_only_construction_throws :
    OAuth2AuthProvider.construct
      { clientId := "", clientSecret := "", accessToken := none,
        refreshToken := some "refresh-1" } =
      .error (.authentication
        "OAuth requires either client credentials or an access token") := rfl

/-- C2 (amended): an `OAuth2AuthProvider` holding a `refreshToken` together
with a (nonempty) access token can be constructed even without client
id/secret; its first `getAuthHeader` performs exactly one token-endpoint
exchange (the refresh-token grant — the untracked pre-supplied token is not
trusted), and after that exchange returned `access_token` and
`expires_in: 3600` the expiry is `now + (3600 − 300) s`; a `getAuthHeader`
call before that expiry returns the cached token with zero network calls,
and a call at or after the expiry triggers exactly one refresh call. -/
theorem oauth_refresh_caching_spec (at0 rt newTok : String) (t0 t1 t2 : Int)
    (hat : at0 ≠ "") (hrt : rt ≠ "") (hnew : newTok ≠ "")
    (h1 : t1 < t0 + 3300000) (h2 : t0 + 3300000 ≤ t2) :
    ∃ st0, OAuth2AuthProvider.construct
        { clientId := "", clientSecret := "", accessToken := some at0,
          refreshToken := some rt } = .ok st0 ∧
      ∃ st1, OAuth2AuthProvider.getAuthHeader st0 t0
          (.success { access_token := newTok, token_type := "bearer",
                      expires_in := some 3600 }) =
          (.ok ("Bearer " ++ newTok, st1), 1) ∧
        st1.tokenExpiry = some (t0 + 3300000) ∧
        (∀ ep, OAuth2AuthProvider.getAuthHeader st1 t1 ep =
          (.ok ("Bearer " ++ newTok, st1), 0)) ∧
        (∀ data, (OAuth2AuthProvider.getAuthHeader st1 t2 (.success data)).2 = 1) := by
  refine ⟨{ clientId := "", clientSecret := "", accessToken := some at0,
            refreshToken := some rt, tokenExpiry := none,
            tokenUrl := BITBUCKET_TOKEN_URL }, ?_, ?_⟩
  · simp [OAuth2AuthProvider.construct, jsFalsyOpt, hat]
  · refine ⟨{ clientId := "", clientSecret := "", accessToken := some newTok,
              refreshToken := some rt, tokenExpiry := some (t0 + 3300000),
              tokenUrl := BITBUCKET_TOKEN_URL }, ?_, rfl, ?_, ?_⟩
    · simp [OAuth2AuthProvider.getAuthHeader, OAuth2AuthProvider.ensureValidToken,
        OAuth2AuthProvider.tokenStillValid, OAuth2AuthProvider.refreshAccessToken,
        OAuth2AuthProvider.updateTokens, jsFalsyOpt, hrt]
    · intro ep
      simp [OAuth2AuthProvider.getAuthHeader, OAuth2AuthProvider.ensureValidToken,
        OAuth2AuthProvider.tokenStillValid, jsFalsyOpt, hnew, h1]
    · intro data
      simp [OAuth2AuthProvider.getAuthHeader, OAuth2AuthProvider.ensureValidToken,
        OAuth2AuthProvider.tokenStillValid, OAuth2AuthProvider.refreshAccessToken,
        jsFalsyOpt, hnew, hrt, not_lt.mpr h2]

/-- C2 witness: concrete tokens and times, immediately after the refresh
and exactly at the buffered expiry. -/
theorem oauth_refresh_caching_spec_witness :
    ∃ st0, OAuth2AuthProvider.construct
        { clientId := "", clientSecret := "", accessToken := some "pre",
          refreshToken := some "refresh-1" } = .ok st0 ∧
      ∃ st1, OAuth2AuthProvider.getAuthHeader st0 0
          (.success { access_token := "fresh", token_type := "bearer",
                      expires_in := some 3600 }) =
          (.ok ("Bearer " ++ "fresh", st1), 1) ∧
        st1.tokenExpiry = some (0 + 3300000) ∧
        (∀ ep, OAuth2AuthProvider.getAuthHeader st1 1000 ep =
          (.ok ("Bearer " ++ "fresh", st1), 0)) ∧
        (∀ data, (OAuth2AuthProvider.getAuthHeader st1 3300000 (.success data)).2 = 1) :=
  oauth_refresh_caching_spec "pre" "refresh-1" "fresh" 0 1000 3300000
    (by decide) (by decide) (by decide) (by norm_num) (by norm_num)

end BitbucketMCP
